import Mathlib

/-!
Verification of the quantity-resolution and BOQ-aggregation pipeline of the
BIM Quantity Take-Off tool.

The Python modules `quantity_extractor.py`, `boq_generator.py`,
`cost_estimator.py` and `ifc_reader.py` are shallowly embedded below.
Python floats are modelled as rationals (ℚ); a value on which `float(...)`
raises is modelled by the constructor `PValue.nonnum`.  Python `None` and
missing attributes are modelled with `Option`.  External `ifcopenshell`
calls (quantity sets, property sets, geometry, materials) are modelled as
data carried by the element, exactly as the code consumes them.
-/

namespace BimQto

/-- Lower-case a string character-wise (Python `str.lower`). -/
def lowerStr (s : String) : String := ⟨s.data.map Char.toLower⟩

/-- Upper-case a string character-wise (Python `str.upper`). -/
def upperStr (s : String) : String := ⟨s.data.map Char.toUpper⟩

/-- `needle` occurs as a contiguous substring of `hay` (Python `needle in hay`). -/
def containsSub (hay needle : List Char) : Bool :=
  match hay with
  | [] => needle.isEmpty
  | _ :: rest => needle.isPrefixOf hay || containsSub rest needle

/-- String form of `containsSub`. -/
def strContains (hay needle : String) : Bool := containsSub hay.data needle.data

/-- Split a character list at every occurrence of `c` (Python `str.split(c)`). -/
def splitOnChar (c : Char) : List Char → List (List Char)
  | [] => [[]]
  | a :: rest =>
    let r := splitOnChar c rest
    if a = c then [] :: r
    else
      match r with
      | [] => [[a]]
      | g :: gs => (a :: g) :: gs

/-- Remove every occurrence of the substring "Ifc", scanning left to right
(Python `str.replace('Ifc', '')`). -/
def stripIfcChars : List Char → List Char
  | 'I' :: 'f' :: 'c' :: rest => stripIfcChars rest
  | c :: rest => c :: stripIfcChars rest
  | [] => []

/-- Code-point lexicographic order on strings, as Python / pandas compare them. -/
def charListLe : List Char → List Char → Bool
  | [], _ => true
  | _ :: _, [] => false
  | a :: as, b :: bs =>
    if a.toNat < b.toNat then true
    else if b.toNat < a.toNat then false
    else charListLe as bs

/-- Python `str.startswith`. -/
def strStartsWith (s pre : String) : Bool := pre.data.isPrefixOf s.data

/-- Python `round(x, 3)`.  Python rounds ties to even on floats; ties never
occur in the claims below, so nearest rounding with half-up ties is used. -/
def round3 (q : ℚ) : ℚ := ((⌊q * 1000 + 1/2⌋ : ℤ) : ℚ) / 1000

/-- A raw property / quantity value: `num q` is any value accepted by
Python `float(...)`, `nonnum` is a value on which `float` raises. -/
inductive PValue where
  | num (q : ℚ)
  | nonnum
deriving DecidableEq

/-- The three target quantity fields. -/
inductive QKind where
  | volume
  | area
  | length
deriving DecidableEq

/-- The `volume` / `area` / `length` part of the working dictionary in
`quantity_extractor.py`: a key is present in the Python dict iff the
corresponding field is `some`. -/
structure QtyTriple where
  volume : Option ℚ
  area : Option ℚ
  length : Option ℚ
deriving DecidableEq

/-- The empty quantity dictionary. -/
def QtyTriple.emptyT : QtyTriple := ⟨none, none, none⟩

/-- Python `not quantities` / `all(... is None ...)`: in the triple embedding
the dict is empty iff all three fields are absent. -/
def QtyTriple.isEmpty (t : QtyTriple) : Bool :=
  t.volume.isNone && t.area.isNone && t.length.isNone

/-- Project a field of the triple. -/
def QtyTriple.get : QtyTriple → QKind → Option ℚ
  | t, .volume => t.volume
  | t, .area => t.area
  | t, .length => t.length

/-- An `IfcPhysicalQuantity` inside an `IfcElementQuantity`:
`phys k v` is an IfcQuantityVolume/Area/Length whose value attribute is `v`
(`none` models a missing or `None`-valued attribute); `other` is any other
physical quantity. -/
inductive PhysQty where
  | phys (k : QKind) (v : Option PValue)
  | other
deriving DecidableEq

/-- A geometric bounding box, as returned by `geometry.bbox()`:
`(bbox[0], ..., bbox[5])`. -/
structure Bbox where
  x0 : ℚ
  y0 : ℚ
  z0 : ℚ
  x1 : ℚ
  y1 : ℚ
  z1 : ℚ
deriving DecidableEq

/-- Result of `ifcopenshell.geom.create_shape(...).geometry` for an element:
each call result is `none` when the corresponding call raises. -/
structure Geom where
  volume : Option ℚ
  area : Option ℚ
  bbox : Option Bbox
deriving DecidableEq

/-- One entry of `ifcopenshell.util.element.get_materials(element)`:
`withName n` has a `Name` attribute with value `n` (Python `None` ↦ `none`);
`withSelectNamed n` has no `Name` but a `MaterialSelect` with a `Name`;
`plain` has neither. -/
inductive MaterialRef where
  | withName (n : Option String)
  | withSelectNamed (n : Option String)
  | plain
deriving DecidableEq

/-- An IFC element as consumed by the extractor.  `qtoSets` is
`get_qtos(element)` (set name ↦ entries in declared order); `isDefinedBy`
lists the element's relationships, `some qs` being an
`IfcRelDefinesByProperties` whose definition is an `IfcElementQuantity`
with quantities `qs`, `none` any other relationship; `psets` is
`get_psets(element)`; `geometry = none` models `create_shape` failing.
`broken = true` models an element whose attribute access raises, making the
whole per-element extraction fail (caught in `extract_all_quantities`). -/
structure Element where
  eid : ℕ
  globalId : Option String
  typ : String
  name : Option String
  tag : Option String
  predefinedType : Option String
  qtoSets : List (String × List (String × PValue))
  isDefinedBy : List (Option (List PhysQty))
  psets : List (String × List (String × PValue))
  geometry : Option Geom
  materials : List MaterialRef
  broken : Bool
deriving DecidableEq

/-- The dictionary returned by `QuantityExtractor.extract_quantities`. -/
structure Record where
  elementId : ℕ
  globalId : Option String
  typ : String
  name : Option String
  tag : Option String
  volume : Option ℚ
  area : Option ℚ
  length : Option ℚ
  count : ℤ
  material : Option String
  storey : Option String
  category : String
deriving DecidableEq

/-! ## quantity_extractor.py -/

/-- The `quantity_mappings` table mapping recognized IFC quantity/property
names to the three target fields. -/
def qty_mapping (name : String) : Option QKind :=
  if name = "NetVolume" ∨ name = "GrossVolume" ∨ name = "Volume" then
    some QKind.volume
  else if name = "NetArea" ∨ name = "GrossArea" ∨ name = "Area" ∨
          name = "NetSideArea" ∨ name = "TotalSurfaceArea" then
    some QKind.area
  else if name = "Length" ∨ name = "NetLength" ∨ name = "GrossLength" ∨
          name = "Perimeter" ∨ name = "Width" ∨ name = "Height" ∨
          name = "Depth" then
    some QKind.length
  else
    none

/-- Keep the first present value: `a if a is not None else b`. -/
def opt_or (a b : Option ℚ) : Option ℚ :=
  match a with
  | some v => some v
  | none => b

/-- `if quantities.get(k) is None: quantities[k] = value` — store a value
only when the field is still absent. -/
def set_if_none (t : QtyTriple) (k : QKind) (v : ℚ) : QtyTriple :=
  match k with
  | .volume => { t with volume := opt_or t.volume (some v) }
  | .area => { t with area := opt_or t.area (some v) }
  | .length => { t with length := opt_or t.length (some v) }

/-- Inner loop body over one `(qty_name, qty_value)` entry: a recognized
name whose value parses as a float fills its field if still absent;
anything else is skipped (`continue`). -/
def apply_entry (t : QtyTriple) (p : String × PValue) : QtyTriple :=
  match qty_mapping p.1 with
  | some k =>
    match p.2 with
    | .num v => set_if_none t k v
    | .nonnum => t
  | none => t

/-- Method 1 of `_extract_ifc_element_quantities`: scan the
`get_qtos(element)` sets in declared order. -/
def qtos_scan (sets : List (String × List (String × PValue))) : QtyTriple :=
  sets.foldl (fun t s => s.2.foldl apply_entry t) QtyTriple.emptyT

/-- Loop body over one `IfcPhysicalQuantity` in method 2: a typed quantity
whose value attribute is present and parses as a float fills its field if
still absent. -/
def apply_phys (t : QtyTriple) (q : PhysQty) : QtyTriple :=
  match q with
  | .phys k (some (.num v)) => set_if_none t k v
  | _ => t

/-- Method 2 of `_extract_ifc_element_quantities`: scan the element's
`IsDefinedBy` relationships for `IfcElementQuantity` definitions. -/
def phys_scan (rels : List (Option (List PhysQty))) : QtyTriple :=
  rels.foldl
    (fun t r =>
      match r with
      | some qs => qs.foldl apply_phys t
      | none => t)
    QtyTriple.emptyT

/-- `QuantityExtractor._extract_ifc_element_quantities`: method 2 runs only
when method 1 produced nothing (`if not quantities and ...`). -/
def extract_ifc_element_quantities (e : Element) : QtyTriple :=
  let m1 := qtos_scan e.qtoSets
  if m1.isEmpty then phys_scan e.isDefinedBy else m1

/-- `QuantityExtractor._extract_qto_properties`: scan all property sets
whose name contains "Qto" or "Quantities", with the same name→field table
and first-valid-wins fill. -/
def extract_qto_properties (e : Element) : QtyTriple :=
  e.psets.foldl
    (fun t p =>
      if strContains p.1 "Qto" || strContains p.1 "Quantities" then
        p.2.foldl apply_entry t
      else t)
    QtyTriple.emptyT

/-- `QuantityExtractor._calculate_geometric_quantities`: volume and surface
area from geometry when positive; for IfcBeam/IfcColumn an approximate
length as the largest bounding-box dimension when positive.  Any failing
call (modelled by `none`) leaves its field absent. -/
def calculate_geometric_quantities (e : Element) : QtyTriple :=
  match e.geometry with
  | none => QtyTriple.emptyT
  | some g =>
    let v : Option ℚ :=
      match g.volume with
      | some v => if 0 < v then some v else none
      | none => none
    let a : Option ℚ :=
      match g.area with
      | some a => if 0 < a then some a else none
      | none => none
    let l : Option ℚ :=
      if e.typ = "IfcBeam" ∨ e.typ = "IfcColumn" then
        match g.bbox with
        | some b =>
          let len := max (max (b.x1 - b.x0) (b.y1 - b.y0)) (b.z1 - b.z0)
          if 0 < len then some len else none
        | none => none
      else none
    ⟨v, a, l⟩

/-- `QuantityExtractor._get_category`: element type refined by a truthy
predefined type. -/
def get_category (e : Element) : String :=
  match e.predefinedType with
  | some p => if p = "" then e.typ else e.typ ++ "_" ++ p
  | none => e.typ

/-- Loop of `QuantityExtractor._extract_material`: the first material that
exposes a name attribute answers (even when that attribute is `None`). -/
def extract_material_loop : List MaterialRef → Option String
  | [] => none
  | .withName n :: _ => n
  | .withSelectNamed n :: _ => n
  | .plain :: rest => extract_material_loop rest

/-- `QuantityExtractor._extract_material`. -/
def extract_material (e : Element) : Option String :=
  extract_material_loop e.materials

/-- Merge: fill only the fields of `t` that are still absent with those of
`u` (`if quantities.get(key) is None and value is not None`). -/
def fill_missing (t u : QtyTriple) : QtyTriple :=
  ⟨opt_or t.volume u.volume, opt_or t.area u.area, opt_or t.length u.length⟩

/-- Steps 1–3 of `QuantityExtractor.extract_quantities` resolving the raw
three-field dictionary.  Step 2 runs when the step-1 dict is empty or left
all three fields `None`; in the triple embedding both disjuncts coincide
with `isEmpty`.  Step 3 runs when all three fields are still `None` after
step 2. -/
def extract_triple (e : Element) : QtyTriple :=
  let t1 := extract_ifc_element_quantities e
  let t2 := if t1.isEmpty then fill_missing t1 (extract_qto_properties e) else t1
  if t2.isEmpty then fill_missing t2 (calculate_geometric_quantities e) else t2

/-- `QuantityExtractor.extract_quantities`: the record assembled from the
resolved raw triple, with unit conversion applied exactly once at the end —
scale³ to volume, scale² to area, scale to length. -/
def extract_quantities (scale : ℚ) (e : Element) (storey : Option String) :
    Record :=
  let t3 := extract_triple e
  { elementId := e.eid
    globalId := e.globalId
    typ := e.typ
    name := e.name
    tag := e.tag
    volume := t3.volume.map (fun v => v * scale ^ 3)
    area := t3.area.map (fun a => a * scale ^ 2)
    length := t3.length.map (fun l => l * scale)
    count := 1
    material := extract_material e
    storey := storey
    category := get_category e }

/-- One iteration of the `extract_all_quantities` loop: the inner
`try/except` turns a failing storey lookup into `None`; the outer
`try/except` logs and drops (`none`) an element whose extraction raises. -/
def extract_element_step (scale : ℚ)
    (get_storey_fn : Element → Except String (Option String)) (e : Element) :
    Option Record :=
  let storey : Option String :=
    match get_storey_fn e with
    | .ok s => s
    | .error _ => none
  if e.broken then none
  else some (extract_quantities scale e storey)

/-- `QuantityExtractor.extract_all_quantities`. -/
def extract_all_quantities (scale : ℚ) (elements : List Element)
    (get_storey_fn : Element → Except String (Option String)) : List Record :=
  match elements with
  | [] => []
  | e :: rest =>
    match extract_element_step scale get_storey_fn e with
    | some r => r :: extract_all_quantities scale rest get_storey_fn
    | none => extract_all_quantities scale rest get_storey_fn

/-! ## boq_generator.py -/

/-- `qty.get(k, 'Unknown') or 'Unknown'`: an absent or falsy (empty) value
normalizes to the "Unknown" sentinel. -/
def or_unknown (o : Option String) : String :=
  match o with
  | some s => if s = "" then "Unknown" else s
  | none => "Unknown"

/-- `value or 'Not Specified'`. -/
def or_not_specified (o : Option String) : String :=
  match o with
  | some s => if s = "" then "Not Specified" else s
  | none => "Not Specified"

/-- The grouping key of one record in `BOQGenerator._group_quantities`;
an unrecognized grouping level defaults to grouping by type. -/
def group_key (grouping_level : String) (q : Record) : String :=
  if grouping_level = "type" then q.typ
  else if grouping_level = "storey" then or_unknown q.storey
  else if grouping_level = "material" then or_unknown q.material
  else if grouping_level = "all" then
    q.typ ++ "|" ++ or_unknown q.storey ++ "|" ++ or_unknown q.material
  else q.typ

/-- `grouped[key].append(qty)` on an insertion-ordered dict modelled as an
association list: append to an existing group, or add a new group at the
end. -/
def insert_grouped (acc : List (String × List Record)) (k : String)
    (r : Record) : List (String × List Record) :=
  match acc with
  | [] => [(k, [r])]
  | (k', rs) :: rest =>
    if k' = k then (k', rs ++ [r]) :: rest
    else (k', rs) :: insert_grouped rest k r

/-- `BOQGenerator._group_quantities`: partition the records by group key,
group order being first occurrence, member order being input order. -/
def group_quantities (qs : List Record) (grouping_level : String) :
    List (String × List Record) :=
  qs.foldl (fun acc q => insert_grouped acc (group_key grouping_level q) q) []

/-- `BOQGenerator._create_description`: strip the "Ifc" prefix (Python
`replace` removes every occurrence once the name starts with "Ifc") and
append the material only when it is truthy and not a sentinel. -/
def create_description (element_type material : String) : String :=
  let type_name :=
    if strStartsWith element_type "Ifc" then
      (⟨stripIfcChars element_type.data⟩ : String)
    else element_type
  if material ≠ "" ∧ material ≠ "Unknown" ∧ material ≠ "Not Specified" then
    type_name ++ " - " ++ material
  else type_name

/-- Element types priced by volume. -/
def volume_elements : List String :=
  ["IfcWall", "IfcSlab", "IfcFooting", "IfcColumn", "IfcBeam"]

/-- Element types priced by area. -/
def area_elements : List String := ["IfcRoof", "IfcCurtainWall", "IfcRailing"]

/-- Element types priced by length. -/
def length_elements : List String := ["IfcBeam", "IfcPile"]

/-- `element_type.split('_')[0]`. -/
def element_base (element_type : String) : String :=
  ⟨(splitOnChar '_' element_type.data).headD []⟩

/-- `BOQGenerator._determine_primary_quantity`. -/
def determine_primary_quantity (volume area length : ℚ) (count : ℤ)
    (element_type : String) : String × ℚ :=
  let base := element_base element_type
  if base ∈ volume_elements ∧ 0 < volume then ("m³", volume)
  else if base ∈ area_elements ∧ 0 < area then ("m²", area)
  else if base ∈ length_elements ∧ 0 < length then ("m", length)
  else if 0 < volume then ("m³", volume)
  else if 0 < area then ("m²", area)
  else if 0 < length then ("m", length)
  else ("No.", (count : ℚ))

/-- One row of the BOQ DataFrame (the dict built by `_create_boq_item`). -/
structure BoqItem where
  itemNo : Option ℕ
  elementType : String
  description : String
  unit : String
  quantity : ℚ
  storey : String
  material : String
  volumeM3 : Option ℚ
  areaM2 : Option ℚ
  lengthM : Option ℚ
  count : ℤ
deriving DecidableEq

/-- Stand-in for `items[0]` on a group; grouping never builds an empty
group, so this default is never reached from `generate_boq`. -/
def default_record : Record :=
  ⟨0, none, "Unknown", none, none, none, none, none, 1, none, none, "Unknown"⟩

/-- `BOQGenerator._create_boq_item`. -/
def create_boq_item (gkey : String) (items : List Record)
    (grouping_level : String) : BoqItem :=
  let etm : String × String × String :=
    if gkey.data.contains '|' then
      let parts := (splitOnChar '|' gkey.data).map
        (fun l => (⟨l⟩ : String))
      (parts.getD 0 "Unknown", parts.getD 1 "Unknown", parts.getD 2 "Unknown")
    else
      let first := items.headD default_record
      let st0 := or_not_specified first.storey
      let st :=
        if grouping_level = "storey" then
          (if gkey ≠ "Unknown" then gkey else "Not Specified")
        else st0
      (first.typ, st, or_not_specified first.material)
  let element_type := etm.1
  let storey := etm.2.1
  let material := etm.2.2
  let total_volume := items.foldl (fun s r => s + (r.volume.getD 0)) 0
  let total_area := items.foldl (fun s r => s + (r.area.getD 0)) 0
  let total_length := items.foldl (fun s r => s + (r.length.getD 0)) 0
  let total_count := items.foldl (fun s r => s + r.count) 0
  let uq := determine_primary_quantity total_volume total_area total_length
    total_count element_type
  { itemNo := none
    elementType := element_type
    description := create_description element_type material
    unit := uq.1
    quantity := round3 uq.2
    storey := storey
    material := material
    volumeM3 := if 0 < total_volume then some (round3 total_volume) else none
    areaM2 := if 0 < total_area then some (round3 total_area) else none
    lengthM := if 0 < total_length then some (round3 total_length) else none
    count := total_count }

/-- Sort comparison used by `df.sort_values(by=['element_type', 'storey'])`:
lexicographic on (element type, storey). -/
def row_le (a b : BoqItem) : Bool :=
  if a.elementType = b.elementType then charListLe a.storey.data b.storey.data
  else charListLe a.elementType.data b.elementType.data

/-- Insert into a sorted list. -/
def insert_sorted (x : BoqItem) : List BoqItem → List BoqItem
  | [] => [x]
  | y :: ys => if row_le x y then x :: y :: ys else y :: insert_sorted x ys

/-- Sort the BOQ rows by (element type, storey).  pandas does not specify
tie order for its default sort; no claim below depends on ties. -/
def sort_rows : List BoqItem → List BoqItem
  | [] => []
  | x :: xs => insert_sorted x (sort_rows xs)

/-- The BOQ DataFrame: its column labels and its rows.  The rows of a
generated BOQ always carry all eleven fields; `cols` records which columns
the frame has, which is what pandas `insert` and `empty` inspect. -/
structure BoqDF where
  cols : List String
  rows : List BoqItem
deriving DecidableEq

/-- Column order of the generated BOQ after the reordering in
`generate_boq` (the seven required columns, then the retained totals, which
is also the original dict-key order). -/
def boq_columns : List String :=
  ["item_no", "element_type", "description", "unit", "quantity", "storey",
   "material", "volume_m3", "area_m2", "length_m", "count"]

/-- `BOQGenerator.generate_boq`: empty input short-circuits to an empty
frame (`pd.DataFrame()`, no columns); otherwise group, build one row per
group, and sort by (element type, storey). -/
def generate_boq (qs : List Record) (grouping_level : String) : BoqDF :=
  if qs.isEmpty then ⟨[], []⟩
  else
    ⟨boq_columns,
     sort_rows ((group_quantities qs grouping_level).map
       (fun g => create_boq_item g.1 g.2 grouping_level))⟩

/-- Assign item numbers 1, 2, … to the rows in order. -/
def number_rows : List BoqItem → ℕ → List BoqItem
  | [], _ => []
  | r :: rs, i => { r with itemNo := some i } :: number_rows rs (i + 1)

/-- pandas `DataFrame.insert(0, col, range(1, len(df)+1))`: raises
`ValueError` when the column already exists. -/
def df_insert_item_no (df : BoqDF) : Except String BoqDF :=
  if df.cols.contains "item_no" then
    Except.error "cannot insert item_no, already exists"
  else Except.ok ⟨"item_no" :: df.cols, number_rows df.rows 1⟩

/-- `BOQGenerator.add_item_numbers`: an empty frame is returned unchanged
(pandas `df.empty` is true when either axis has length 0); otherwise insert
the `item_no` column. -/
def add_item_numbers (df : BoqDF) : Except String BoqDF :=
  if df.rows.isEmpty || df.cols.isEmpty then Except.ok df
  else df_insert_item_no df

/-- Sum a column that may hold nulls, as pandas `Series.sum` does (null
contributes 0). -/
def sum_opt (l : List (Option ℚ)) : ℚ := l.foldl (fun s o => s + o.getD 0) 0

/-- pandas `Series.unique`, keeping first occurrences in order. -/
def unique_acc (seen : List String) : List String → List String
  | [] => []
  | x :: xs =>
    if seen.contains x then unique_acc seen xs
    else x :: unique_acc (x :: seen) xs

/-- The summary dictionary of `BOQGenerator.get_summary` (nonempty case). -/
structure Summary where
  totalItems : ℕ
  totalVolumeM3 : ℚ
  totalAreaM2 : ℚ
  totalLengthM : ℚ
  totalCount : ℤ
  elementTypes : List String
deriving DecidableEq

/-- `BOQGenerator.get_summary`: Python returns the empty dict `{}` for an
empty frame, modelled as `none`. -/
def get_summary (df : BoqDF) : Option Summary :=
  if df.rows.isEmpty || df.cols.isEmpty then none
  else
    some
      { totalItems := df.rows.length
        totalVolumeM3 :=
          if df.cols.contains "volume_m3" then sum_opt (df.rows.map (·.volumeM3))
          else 0
        totalAreaM2 :=
          if df.cols.contains "area_m2" then sum_opt (df.rows.map (·.areaM2))
          else 0
        totalLengthM :=
          if df.cols.contains "length_m" then sum_opt (df.rows.map (·.lengthM))
          else 0
        totalCount :=
          if df.cols.contains "count" then
            (df.rows.map (·.count)).foldl (· + ·) 0
          else 0
        elementTypes :=
          if df.cols.contains "element_type" then
            unique_acc [] (df.rows.map (·.elementType))
          else [] }

/-! ## cost_estimator.py -/

/-- The loaded rate table: element type ↦ (material-substring-or-"default"
↦ rate), both levels in declared entry order. -/
def RateTable : Type := List (String × List (String × ℚ))

/-- `self.rates.get(element_type, {})`. -/
def lookup_type (rates : RateTable) (ty : String) : List (String × ℚ) :=
  match (rates.find? (fun p => p.1 == ty)) with
  | some p => p.2
  | none => []

/-- `CostEstimator.get_rate`.  `material = none` models Python `None`;
Python treats the empty string as falsy, skipping the material scan. -/
def get_rate (rates : RateTable) (element_type : String)
    (material : Option String) : ℚ :=
  let type_rates := lookup_type rates element_type
  if type_rates.isEmpty then 0
  else
    let matched : Option ℚ :=
      match material with
      | some m =>
        if m = "" then none
        else
          (type_rates.find? (fun p =>
            strContains (lowerStr m) (lowerStr p.1) && !(p.1 == "default"))).map
            (·.2)
      | none => none
    match matched with
    | some r => r
    | none =>
      match (type_rates.find? (fun p => p.1 == "default")) with
      | some p => p.2
      | none => 0

/-! ## ifc_reader.py — unit scale factor -/

/-- A unit descriptor as `get_unit_scale_factor` inspects it.
`unitType`, `name`, `pfx` are `none` when the attribute is missing; a
Python `None` prefix value is `some "None"` (the code stringifies it). -/
structure IfcUnitDef where
  isNamedUnit : Bool
  isSIUnit : Bool
  unitType : Option String
  hasDimensions : Bool
  name : Option String
  pfx : Option String
deriving DecidableEq

/-- The first `IfcProject`'s `UnitsInContext.Units`; `none` covers a
missing/falsy context or missing `Units`. -/
structure IfcProjectDef where
  unitsInContext : Option (List IfcUnitDef)
deriving DecidableEq

/-- The file-level data `get_unit_scale_factor` consumes. -/
structure IfcFileDef where
  projects : List IfcProjectDef
deriving DecidableEq

/-- First loop of `get_unit_scale_factor`: any named length unit whose
truthy name contains a METER/METRE token answers, inspecting the name for
MILLI/CENTI. -/
def scan_named : List IfcUnitDef → Option ℚ
  | [] => none
  | u :: rest =>
    if u.isNamedUnit && (u.unitType == some "LENGTHUNIT")
        && (u.hasDimensions || u.name.isSome) then
      match u.name with
      | some n =>
        if n = "" then scan_named rest
        else
          let nm := upperStr n
          if strContains nm "METER" || strContains nm "METRE" then
            (if strContains nm "MILLI" then some (1 / 1000)
             else if strContains nm "CENTI" then some (1 / 100)
             else some 1)
          else scan_named rest
      | none => scan_named rest
    else scan_named rest

/-- Second loop of `get_unit_scale_factor`: the first SI length unit with a
`Prefix` attribute answers (MILLI → 0.001, CENTI → 0.01, anything else →
1.0). -/
def scan_si : List IfcUnitDef → Option ℚ
  | [] => none
  | u :: rest =>
    if u.isSIUnit && (u.unitType == some "LENGTHUNIT") then
      match u.pfx with
      | some p =>
        let pu := upperStr p
        if pu = "MILLI" then some (1 / 1000)
        else if pu = "CENTI" then some (1 / 100)
        else some 1
      | none => scan_si rest
    else scan_si rest

/-- `IFCReader.get_unit_scale_factor`: named-unit scan, then SI scan, then
the 0.001 (millimeter) default; no project or no unit context also
defaults. -/
def get_unit_scale_factor (f : IfcFileDef) : ℚ :=
  match f.projects with
  | [] => 1 / 1000
  | project :: _ =>
    match project.unitsInContext with
    | none => 1 / 1000
    | some units =>
      match scan_named units with
      | some r => r
      | none =>
        match scan_si units with
        | some r => r
        | none => 1 / 1000


/-! ## Spec-side characterizations -/

/-- From the spec's words: the first valid numeric value for field `k`
among the entries, in scan order — no averaging or summing. -/
def first_valid_for (k : QKind) : List (String × PValue) → Option ℚ
  | [] => none
  | (n, v) :: rest =>
    if qty_mapping n = some k then
      match v with
      | .num q => some q
      | .nonnum => first_valid_for k rest
    else first_valid_for k rest

/-- All quantity-set entries in scan order: sets in declared order, each
set's entries in declared order. -/
def flat_entries : List (String × List (String × PValue)) →
    List (String × PValue)
  | [] => []
  | s :: rest => s.2 ++ flat_entries rest

/-- From the spec's words: scan the type's rate entries in declared order
for the first key, other than the literal "default", whose lower-cased form
is a substring of the lower-cased material. -/
def scan_material_spec (m : String) : List (String × ℚ) → Option ℚ
  | [] => none
  | (k, r) :: rest =>
    if k ≠ "default" ∧ strContains (lowerStr m) (lowerStr k) = true then some r
    else scan_material_spec m rest

/-- From the spec's words: rate lookup priority — material-substring scan
(only when a truthy material is given), then the type's "default" entry,
then 0.0; an absent type yields 0.0. -/
def rate_spec (rates : RateTable) (ty : String) (material : Option String) :
    ℚ :=
  match rates.find? (fun p => p.1 == ty) with
  | none => 0
  | some tp =>
    let viaMat : Option ℚ :=
      match material with
      | some m => if m = "" then none else scan_material_spec m tp.2
      | none => none
    match viaMat with
    | some r => r
    | none =>
      match tp.2.find? (fun p => p.1 == "default") with
      | some p => p.2
      | none => 0

/-- The units list `get_unit_scale_factor` iterates over, when reachable. -/
def units_of (f : IfcFileDef) : Option (List IfcUnitDef) :=
  match f.projects with
  | [] => none
  | p :: _ => p.unitsInContext

/-- The storey value the `extract_all_quantities` loop passes on: the
storey function's answer, or `None` when the inner `try` caught a failure. -/
def resolved_storey (get_storey_fn : Element → Except String (Option String))
    (e : Element) : Option String :=
  match get_storey_fn e with
  | .ok s => s
  | .error _ => none

/-! ## Concrete instances used by witnesses and counterexamples -/

/-- Witness element for C1: an authoritative NetVolume of 2 together with
conflicting property-set and geometric data that must be ignored. -/
def c1elem : Element :=
  { eid := 1, globalId := some "G1", typ := "IfcWall", name := some "W1",
    tag := none, predefinedType := none,
    qtoSets :=
      [("Qto_WallBaseQuantities",
        [("NetVolume", PValue.num 2), ("GrossVolume", PValue.num 9)])],
    isDefinedBy := [],
    psets := [("Qto_WallBaseQuantities", [("NetVolume", PValue.num 7)])],
    geometry := some ⟨some 11, some 12, none⟩,
    materials := [], broken := false }

/-- Element refuting C4 as stated: tier 1 resolves only the volume, the
property sets hold a valid quantity-set area, yet the record's area stays
absent because step 2 runs only when step 1 produced nothing at all. -/
def c4elem : Element :=
  { eid := 4, globalId := none, typ := "IfcWall", name := none, tag := none,
    predefinedType := none,
    qtoSets := [("Qto_WallBaseQuantities", [("NetVolume", PValue.num 2)])],
    isDefinedBy := [],
    psets := [("Qto_WallBaseQuantities", [("NetArea", PValue.num 5)])],
    geometry := none, materials := [], broken := false }

/-- Witness element for the amended C4: empty tier 1, property-set area. -/
def c4welem : Element :=
  { eid := 5, globalId := none, typ := "IfcSlab", name := none, tag := none,
    predefinedType := none,
    qtoSets := [],
    isDefinedBy := [],
    psets := [("Qto_SlabBaseQuantities", [("NetArea", PValue.num 5)])],
    geometry := some ⟨some 11, some 12, none⟩,
    materials := [], broken := false }

/-- A field is absent or holds a non-negative value (the invariant claimed
for the extracted record's measures). -/
def OptNN (o : Option ℚ) : Prop := ∀ v, o = some v → 0 ≤ v

/-- Every field of a triple is absent or non-negative. -/
def triple_nn (t : QtyTriple) : Prop := ∀ k, OptNN (t.get k)

/-- A source value is non-negative when numeric. -/
def pval_nn : PValue → Bool
  | .num q => decide (0 ≤ q)
  | .nonnum => true

/-- All numeric values among the entries are non-negative. -/
def entries_nn (l : List (String × PValue)) : Bool :=
  l.all (fun p => pval_nn p.2)

/-- A physical quantity's value is non-negative when present and numeric. -/
def phys_nn : PhysQty → Bool
  | .phys _ (some v) => pval_nn v
  | _ => true

/-- Every numeric value reachable by tiers 1 and 2 on this element is
non-negative. -/
def element_values_nn (e : Element) : Bool :=
  e.qtoSets.all (fun s => entries_nn s.2) &&
  e.isDefinedBy.all (fun r =>
    match r with
    | some qs => qs.all phys_nn
    | none => true) &&
  e.psets.all (fun s => entries_nn s.2)

/-- Element refuting C8 as stated: its authoritative quantity set carries a
negative NetVolume, which tiers 1–2 accept unvalidated. -/
def c8elem : Element :=
  { eid := 8, globalId := none, typ := "IfcWall", name := none, tag := none,
    predefinedType := none,
    qtoSets := [("Qto_WallBaseQuantities", [("NetVolume", PValue.num (-5))])],
    isDefinedBy := [], psets := [], geometry := none,
    materials := [], broken := false }

/-- An SI length unit with prefix MILLI, as ifcopenshell presents it: an
`IfcSIUnit` (hence also an `IfcNamedUnit`) without a usable `Name`. -/
def siMilliUnit : IfcUnitDef :=
  { isNamedUnit := true, isSIUnit := true, unitType := some "LENGTHUNIT",
    hasDimensions := true, name := none, pfx := some "MILLI" }

/-- A conversion-based named length unit called CENTIMETRE. -/
def namedCentiUnit : IfcUnitDef :=
  { isNamedUnit := true, isSIUnit := false, unitType := some "LENGTHUNIT",
    hasDimensions := false, name := some "CENTIMETRE", pfx := none }

/-- File refuting C5's resolution order: the explicit SI MILLI unit is
listed first, yet the named CENTIMETRE unit decides the factor. -/
def c5file : IfcFileDef := ⟨[⟨some [siMilliUnit, namedCentiUnit]⟩]⟩

/-- A minimal valid wall element with no quantity data anywhere. -/
def minimal_elem : Element :=
  { eid := 6, globalId := none, typ := "IfcWall", name := none, tag := none,
    predefinedType := none, qtoSets := [], isDefinedBy := [], psets := [],
    geometry := none, materials := [], broken := false }

/-- An element whose attribute access raises during extraction. -/
def broken_elem : Element := { minimal_elem with eid := 7, broken := true }

/-- A storey resolver that always answers "no storey". -/
def stub_storey : Element → Except String (Option String) :=
  fun _ => Except.ok none

/-- The rate table of the spec's worked example. -/
def demoRates : RateTable :=
  [("IfcWall", [("Concrete", 50), ("default", 10)])]

/-! ## Helper lemmas -/

lemma opt_or_none_right (a : Option ℚ) : opt_or a none = a := by
  cases a <;> rfl

lemma opt_or_assoc (a b c : Option ℚ) :
    opt_or (opt_or a b) c = opt_or a (opt_or b c) := by
  cases a <;> rfl

lemma emptyT_get (k : QKind) : QtyTriple.emptyT.get k = none := by
  cases k <;> rfl

lemma set_if_none_get_same (t : QtyTriple) (k : QKind) (v : ℚ) :
    (set_if_none t k v).get k = opt_or (t.get k) (some v) := by
  cases k <;> rfl

lemma set_if_none_get_ne (t : QtyTriple) (k k' : QKind) (v : ℚ)
    (h : k' ≠ k) : (set_if_none t k v).get k' = t.get k' := by
  cases k <;> cases k' <;> first
    | exact absurd rfl h
    | rfl

lemma first_valid_cons_nonnum (k : QKind) (n : String)
    (rest : List (String × PValue)) :
    first_valid_for k ((n, PValue.nonnum) :: rest) = first_valid_for k rest := by
  by_cases h : qty_mapping n = some k <;> simp [first_valid_for, h]

lemma first_valid_cons_num_hit (k : QKind) (n : String) (q : ℚ)
    (rest : List (String × PValue)) (h : qty_mapping n = some k) :
    first_valid_for k ((n, PValue.num q) :: rest) = some q := by
  simp [first_valid_for, h]

lemma first_valid_cons_miss (k : QKind) (n : String) (v : PValue)
    (rest : List (String × PValue)) (h : ¬ qty_mapping n = some k) :
    first_valid_for k ((n, v) :: rest) = first_valid_for k rest := by
  simp [first_valid_for, h]

lemma foldl_apply_entry_get (entries : List (String × PValue)) :
    ∀ (t : QtyTriple) (k : QKind),
      (entries.foldl apply_entry t).get k =
        opt_or (t.get k) (first_valid_for k entries) := by
  induction entries with
  | nil => intro t k; simp [first_valid_for, opt_or_none_right]
  | cons p rest ih =>
    intro t k
    obtain ⟨n, pv⟩ := p
    rw [List.foldl_cons, ih]
    cases hm : qty_mapping n with
    | none =>
      have hmiss : ¬ qty_mapping n = some k := by simp [hm]
      rw [first_valid_cons_miss k n pv rest hmiss]
      simp [apply_entry, hm]
    | some k' =>
      cases pv with
      | nonnum =>
        rw [first_valid_cons_nonnum]
        simp [apply_entry, hm]
      | num q =>
        by_cases hk : k' = k
        · subst hk
          rw [first_valid_cons_num_hit k' n q rest hm]
          simp only [apply_entry, hm]
          rw [set_if_none_get_same, opt_or_assoc]
          rfl
        · have hmiss : ¬ qty_mapping n = some k := by simp [hm, hk]
          rw [first_valid_cons_miss k n _ rest hmiss]
          simp only [apply_entry, hm]
          rw [set_if_none_get_ne t k' k q (fun hkk => hk hkk.symm)]

lemma foldl_sets_eq (sets : List (String × List (String × PValue))) :
    ∀ t : QtyTriple,
      sets.foldl (fun t s => s.2.foldl apply_entry t) t =
        (flat_entries sets).foldl apply_entry t := by
  induction sets with
  | nil => intro t; rfl
  | cons s rest ih =>
    intro t
    rw [List.foldl_cons, ih, flat_entries, List.foldl_append]

/-- The tier-1 quantity-set scan resolves each field to the first valid
numeric value for it, in scan order. -/
lemma qtos_scan_get (sets : List (String × List (String × PValue)))
    (k : QKind) :
    (qtos_scan sets).get k = first_valid_for k (flat_entries sets) := by
  rw [qtos_scan, foldl_sets_eq, foldl_apply_entry_get, emptyT_get]
  rfl

lemma isEmpty_false_of_get (t : QtyTriple) (k : QKind) (v : ℚ)
    (h : t.get k = some v) : t.isEmpty = false := by
  cases k <;>
    simp_all [QtyTriple.isEmpty, QtyTriple.get, Option.isNone_iff_eq_none]

lemma fill_missing_of_empty (t u : QtyTriple) (h : t.isEmpty = true) :
    fill_missing t u = u := by
  obtain ⟨tv, ta, tl⟩ := t
  simp only [QtyTriple.isEmpty, Bool.and_eq_true, Option.isNone_iff_eq_none]
    at h
  obtain ⟨⟨h1, h2⟩, h3⟩ := h
  subst h1; subst h2; subst h3
  rfl

lemma extract_triple_of_t1 (e : Element)
    (h : (extract_ifc_element_quantities e).isEmpty = false) :
    extract_triple e = extract_ifc_element_quantities e := by
  simp [extract_triple, h]

lemma extract_triple_of_t2 (e : Element)
    (h1 : (extract_ifc_element_quantities e).isEmpty = true)
    (h2 : (extract_qto_properties e).isEmpty = false) :
    extract_triple e = extract_qto_properties e := by
  simp [extract_triple, h1, h2, fill_missing_of_empty _ _ h1]

/-- When tier 1 resolved at least one field, the record's three measures
are exactly tier 1's, each scaled once. -/
lemma extract_fields_of_t1 (scale : ℚ) (e : Element) (st : Option String)
    (h : (extract_ifc_element_quantities e).isEmpty = false) :
    (extract_quantities scale e st).volume =
      (extract_ifc_element_quantities e).volume.map (fun v => v * scale ^ 3) ∧
    (extract_quantities scale e st).area =
      (extract_ifc_element_quantities e).area.map (fun a => a * scale ^ 2) ∧
    (extract_quantities scale e st).length =
      (extract_ifc_element_quantities e).length.map (fun l => l * scale) := by
  refine ⟨?_, ?_, ?_⟩ <;> simp [extract_quantities, extract_triple_of_t1 e h]

/-- When tier 1 resolved nothing and tier 2 resolved at least one field,
the record's three measures are exactly tier 2's, each scaled once. -/
lemma extract_fields_of_t2 (scale : ℚ) (e : Element) (st : Option String)
    (h1 : (extract_ifc_element_quantities e).isEmpty = true)
    (h2 : (extract_qto_properties e).isEmpty = false) :
    (extract_quantities scale e st).volume =
      (extract_qto_properties e).volume.map (fun v => v * scale ^ 3) ∧
    (extract_quantities scale e st).area =
      (extract_qto_properties e).area.map (fun a => a * scale ^ 2) ∧
    (extract_quantities scale e st).length =
      (extract_qto_properties e).length.map (fun l => l * scale) := by
  refine ⟨?_, ?_, ?_⟩ <;>
    simp [extract_quantities, extract_triple_of_t2 e h1 h2]

lemma opt_or_nn (a b : Option ℚ) (ha : OptNN a) (hb : OptNN b) :
    OptNN (opt_or a b) := by
  cases a with
  | none => exact hb
  | some w => intro v hv; exact ha v hv

lemma set_if_none_nn (t : QtyTriple) (k : QKind) (v : ℚ)
    (ht : triple_nn t) (hv : 0 ≤ v) : triple_nn (set_if_none t k v) := by
  intro k'
  by_cases hk : k' = k
  · subst hk
    rw [set_if_none_get_same]
    exact opt_or_nn _ _ (ht k') (fun w hw => by
      cases hw; exact hv)
  · rw [set_if_none_get_ne t k k' v hk]
    exact ht k'

lemma foldl_apply_entry_nn (entries : List (String × PValue))
    (h : entries_nn entries = true) :
    ∀ t : QtyTriple, triple_nn t → triple_nn (entries.foldl apply_entry t) := by
  induction entries with
  | nil => intro t ht; exact ht
  | cons p rest ih =>
    intro t ht
    obtain ⟨n, pv⟩ := p
    simp only [entries_nn, List.all_cons, Bool.and_eq_true] at h
    rw [List.foldl_cons]
    refine ih (by simpa [entries_nn] using h.2) _ ?_
    cases hm : qty_mapping n with
    | none => simpa [apply_entry, hm] using ht
    | some k =>
      cases pv with
      | nonnum => simpa [apply_entry, hm] using ht
      | num q =>
        have hq : 0 ≤ q := by simpa [pval_nn] using h.1
        simpa [apply_entry, hm] using set_if_none_nn t k q ht hq

lemma foldl_apply_phys_nn (qs : List PhysQty) (h : qs.all phys_nn = true) :
    ∀ t : QtyTriple, triple_nn t → triple_nn (qs.foldl apply_phys t) := by
  induction qs with
  | nil => intro t ht; exact ht
  | cons q rest ih =>
    intro t ht
    simp only [List.all_cons, Bool.and_eq_true] at h
    rw [List.foldl_cons]
    refine ih h.2 _ ?_
    cases q with
    | other => simpa [apply_phys] using ht
    | phys k v =>
      cases v with
      | none => simpa [apply_phys] using ht
      | some pv =>
        cases pv with
        | nonnum => simpa [apply_phys] using ht
        | num x =>
          have hx : 0 ≤ x := by simpa [phys_nn, pval_nn] using h.1
          simpa [apply_phys] using set_if_none_nn t k x ht hx

lemma emptyT_nn : triple_nn QtyTriple.emptyT := by
  intro k v hv
  rw [emptyT_get] at hv
  cases hv

lemma qtos_scan_nn (sets : List (String × List (String × PValue)))
    (h : sets.all (fun s => entries_nn s.2) = true) :
    triple_nn (qtos_scan sets) := by
  have hflat : entries_nn (flat_entries sets) = true := by
    induction sets with
    | nil => rfl
    | cons s rest ih =>
      simp only [List.all_cons, Bool.and_eq_true] at h
      simp only [flat_entries, entries_nn, List.all_append]
      exact Bool.and_eq_true _ _ |>.mpr ⟨h.1, by simpa [entries_nn] using ih h.2⟩
  rw [qtos_scan, foldl_sets_eq]
  exact foldl_apply_entry_nn _ hflat _ emptyT_nn

lemma phys_scan_nn (rels : List (Option (List PhysQty)))
    (h : rels.all (fun r =>
      match r with
      | some qs => qs.all phys_nn
      | none => true) = true) :
    triple_nn (phys_scan rels) := by
  rw [phys_scan]
  have step : ∀ t : QtyTriple, triple_nn t →
      triple_nn (rels.foldl
        (fun t r =>
          match r with
          | some qs => qs.foldl apply_phys t
          | none => t) t) := by
    induction rels with
    | nil => intro t ht; exact ht
    | cons r rest ih =>
      intro t ht
      simp only [List.all_cons, Bool.and_eq_true] at h
      rw [List.foldl_cons]
      refine ih h.2 _ ?_
      cases r with
      | none => exact ht
      | some qs => exact foldl_apply_phys_nn qs h.1 t ht
  exact step _ emptyT_nn

lemma extract_qto_properties_nn (e : Element)
    (h : e.psets.all (fun s => entries_nn s.2) = true) :
    triple_nn (extract_qto_properties e) := by
  rw [extract_qto_properties]
  have step : ∀ (l : List (String × List (String × PValue))),
      l.all (fun s => entries_nn s.2) = true →
      ∀ t : QtyTriple, triple_nn t →
      triple_nn (l.foldl
        (fun t p =>
          if strContains p.1 "Qto" || strContains p.1 "Quantities" then
            p.2.foldl apply_entry t
          else t) t) := by
    intro l
    induction l with
    | nil => intro _ t ht; exact ht
    | cons p rest ih =>
      intro hl t ht
      simp only [List.all_cons, Bool.and_eq_true] at hl
      rw [List.foldl_cons]
      refine ih hl.2 _ ?_
      by_cases hc : (strContains p.1 "Qto" || strContains p.1 "Quantities") = true
      · simpa [hc] using foldl_apply_entry_nn _ hl.1 t ht
      · simpa [hc] using ht
  exact step _ h _ emptyT_nn

lemma calculate_geometric_nn (e : Element) :
    triple_nn (calculate_geometric_quantities e) := by
  rw [calculate_geometric_quantities]
  cases e.geometry with
  | none => exact emptyT_nn
  | some g =>
    intro k v hv
    cases k <;> simp only [QtyTriple.get] at hv
    · cases hg : g.volume with
      | none => simp [hg] at hv
      | some w =>
        simp only [hg] at hv
        by_cases hw : 0 < w
        · simp only [if_pos hw] at hv; cases hv; exact le_of_lt hw
        · simp [if_neg hw] at hv
    · cases hg : g.area with
      | none => simp [hg] at hv
      | some w =>
        simp only [hg] at hv
        by_cases hw : 0 < w
        · simp only [if_pos hw] at hv; cases hv; exact le_of_lt hw
        · simp [if_neg hw] at hv
    · by_cases ht : e.typ = "IfcBeam" ∨ e.typ = "IfcColumn"
      · simp only [if_pos ht] at hv
        cases hb : g.bbox with
        | none => simp [hb] at hv
        | some b =>
          simp only [hb] at hv
          by_cases hl :
              0 < max (max (b.x1 - b.x0) (b.y1 - b.y0)) (b.z1 - b.z0)
          · simp only [if_pos hl] at hv; cases hv; exact le_of_lt hl
          · simp only [if_neg hl] at hv; exact Option.noConfusion hv
      · simp [if_neg ht] at hv

lemma fill_missing_get (t u : QtyTriple) (k : QKind) :
    (fill_missing t u).get k = opt_or (t.get k) (u.get k) := by
  cases k <;> rfl

lemma fill_missing_nn (t u : QtyTriple) (ht : triple_nn t)
    (hu : triple_nn u) : triple_nn (fill_missing t u) := by
  intro k
  rw [fill_missing_get]
  exact opt_or_nn _ _ (ht k) (hu k)

/-- Under non-negative source values, every tier yields a non-negative
triple, hence so does the resolved triple. -/
lemma extract_triple_nn (e : Element) (h : element_values_nn e = true) :
    triple_nn (extract_triple e) := by
  simp only [element_values_nn, Bool.and_eq_true] at h
  obtain ⟨⟨h1, h2⟩, h3⟩ := h
  have nn1 : triple_nn (extract_ifc_element_quantities e) := by
    rw [extract_ifc_element_quantities]
    by_cases hm : (qtos_scan e.qtoSets).isEmpty = true
    · simpa [hm] using phys_scan_nn e.isDefinedBy h2
    · simpa [hm] using qtos_scan_nn e.qtoSets h1
  have nn2 : triple_nn (extract_qto_properties e) :=
    extract_qto_properties_nn e h3
  have nn3 : triple_nn (calculate_geometric_quantities e) :=
    calculate_geometric_nn e
  rw [extract_triple]
  by_cases hA : (extract_ifc_element_quantities e).isEmpty = true
  · by_cases hB :
        (fill_missing (extract_ifc_element_quantities e)
          (extract_qto_properties e)).isEmpty = true
    · simpa [hA, hB] using
        fill_missing_nn _ _ (fill_missing_nn _ _ nn1 nn2) nn3
    · simpa [hA, hB] using fill_missing_nn _ _ nn1 nn2
  · simpa [hA] using nn1

lemma scan_named_pos :
    ∀ (us : List IfcUnitDef) (r : ℚ), scan_named us = some r → 0 < r := by
  intro us
  induction us with
  | nil => intro r h; exact Option.noConfusion h
  | cons u rest ih =>
    intro r h
    simp only [scan_named] at h
    repeat' split at h
    all_goals
      first
        | exact ih _ h
        | (rw [Option.some_inj] at h; subst h; norm_num)

lemma scan_si_pos :
    ∀ (us : List IfcUnitDef) (r : ℚ), scan_si us = some r → 0 < r := by
  intro us
  induction us with
  | nil => intro r h; exact Option.noConfusion h
  | cons u rest ih =>
    intro r h
    simp only [scan_si] at h
    repeat' split at h
    all_goals
      first
        | exact ih _ h
        | (rw [Option.some_inj] at h; subst h; norm_num)

lemma extract_all_eq_filterMap (scale : ℚ) (es : List Element)
    (f : Element → Except String (Option String)) :
    extract_all_quantities scale es f =
      es.filterMap (extract_element_step scale f) := by
  induction es with
  | nil => rfl
  | cons e rest ih =>
    cases h : extract_element_step scale f e with
    | some r =>
      simp only [extract_all_quantities, h, List.filterMap_cons, ih]
    | none =>
      simp only [extract_all_quantities, h, List.filterMap_cons, ih]

lemma extract_element_step_ok (scale : ℚ)
    (f : Element → Except String (Option String)) (e : Element)
    (h : e.broken = false) :
    extract_element_step scale f e =
      some (extract_quantities scale e (resolved_storey f e)) := by
  simp [extract_element_step, resolved_storey, h]

lemma extract_all_count_one (scale : ℚ) (es : List Element)
    (f : Element → Except String (Option String)) :
    ∀ r ∈ extract_all_quantities scale es f, r.count = 1 := by
  intro r hr
  rw [extract_all_eq_filterMap] at hr
  obtain ⟨e, _, hstep⟩ := List.mem_filterMap.mp hr
  by_cases hb : e.broken = true
  · simp [extract_element_step, hb] at hstep
  · rw [extract_element_step_ok scale f e (by simpa using hb),
      Option.some_inj] at hstep
    rw [← hstep]
    rfl

lemma insert_grouped_pred (P : Record → Prop) :
    ∀ (acc : List (String × List Record)) (k : String) (r : Record),
      (∀ g ∈ acc, ∀ x ∈ g.2, P x) → P r →
      ∀ g ∈ insert_grouped acc k r, ∀ x ∈ g.2, P x := by
  intro acc
  induction acc with
  | nil =>
    intro k r _ hr g hg x hx
    simp only [insert_grouped, List.mem_singleton] at hg
    subst hg
    simp only [List.mem_singleton] at hx
    subst hx
    exact hr
  | cons p rest ih =>
    intro k r hacc hr g hg x hx
    obtain ⟨k', rs⟩ := p
    by_cases hk : k' = k
    · simp only [insert_grouped, if_pos hk, List.mem_cons] at hg
      rcases hg with hg | hg
      · subst hg
        simp only [List.mem_append, List.mem_singleton] at hx
        rcases hx with hx | hx
        · exact hacc (k', rs) (List.mem_cons_self _ _) x hx
        · subst hx; exact hr
      · exact hacc g (List.mem_cons_of_mem _ hg) x hx
    · simp only [insert_grouped, if_neg hk, List.mem_cons] at hg
      rcases hg with hg | hg
      · subst hg
        exact hacc (k', rs) (List.mem_cons_self _ _) x hx
      · exact ih k r (fun g' hg' => hacc g' (List.mem_cons_of_mem _ hg')) hr
          g hg x hx

lemma group_quantities_pred (P : Record → Prop) (lvl : String) :
    ∀ (qs : List Record) (acc : List (String × List Record)),
      (∀ g ∈ acc, ∀ x ∈ g.2, P x) → (∀ q ∈ qs, P q) →
      ∀ g ∈ qs.foldl
          (fun acc q => insert_grouped acc (group_key lvl q) q) acc,
        ∀ x ∈ g.2, P x := by
  intro qs
  induction qs with
  | nil => intro acc hacc _ g hg x hx; exact hacc g hg x hx
  | cons q rest ih =>
    intro acc hacc hqs g hg x hx
    rw [List.foldl_cons] at hg
    refine ih _ ?_ (fun q' hq' => hqs q' (List.mem_cons_of_mem _ hq'))
      g hg x hx
    exact insert_grouped_pred P acc (group_key lvl q) q hacc
      (hqs q (List.mem_cons_self _ _))

lemma foldl_count_ones (l : List Record) :
    ∀ a : ℤ, (∀ r ∈ l, r.count = 1) →
      l.foldl (fun s r => s + r.count) a = a + l.length := by
  induction l with
  | nil => intro a _; simp
  | cons r rest ih =>
    intro a h
    rw [List.foldl_cons, ih _ (fun x hx => h x (List.mem_cons_of_mem _ hx)),
      h r (List.mem_cons_self _ _)]
    simp only [List.length_cons]
    push_cast
    ring

lemma create_boq_item_count (k : String) (items : List Record)
    (lvl : String) (h : ∀ r ∈ items, r.count = 1) :
    (create_boq_item k items lvl).count = (items.length : ℤ) := by
  simp only [create_boq_item]
  rw [foldl_count_ones items 0 h]
  ring

lemma length_insert_sorted (x : BoqItem) (l : List BoqItem) :
    (insert_sorted x l).length = l.length + 1 := by
  induction l with
  | nil => rfl
  | cons y ys ih =>
    by_cases h : row_le x y = true
    · simp [insert_sorted, h]
    · simp [insert_sorted, h, ih]

lemma length_sort_rows (l : List BoqItem) :
    (sort_rows l).length = l.length := by
  induction l with
  | nil => rfl
  | cons x xs ih => simp [sort_rows, length_insert_sorted, ih]

lemma find_scan_eq (m : String) (l : List (String × ℚ)) :
    (l.find? (fun p =>
      strContains (lowerStr m) (lowerStr p.1) && !(p.1 == "default"))).map
      (·.2) = scan_material_spec m l := by
  induction l with
  | nil => rfl
  | cons p rest ih =>
    obtain ⟨k, r⟩ := p
    by_cases h1 : k = "default"
    · by_cases h2 : strContains (lowerStr m) (lowerStr k) = true <;>
        simp [List.find?_cons, scan_material_spec, h1, h2, ih]
    · by_cases h2 : strContains (lowerStr m) (lowerStr k) = true <;>
        simp [List.find?_cons, scan_material_spec, h1, h2, ih]

lemma scan_material_spec_nil (m : String) :
    scan_material_spec m [] = none := rfl

lemma get_rate_eq_rate_spec (rates : RateTable) (ty : String)
    (mat : Option String) : get_rate rates ty mat = rate_spec rates ty mat := by
  cases hf : rates.find? (fun p => p.1 == ty) with
  | none =>
    simp [get_rate, rate_spec, lookup_type, hf]
  | some tp =>
    rcases htp : tp.2 with _ | ⟨q, qs⟩
    · cases mat with
      | none => simp [get_rate, rate_spec, lookup_type, hf, htp]
      | some m =>
        by_cases hm : m = "" <;>
          simp [get_rate, rate_spec, lookup_type, hf, htp, hm,
            scan_material_spec_nil]
    · have hne : (lookup_type rates ty).isEmpty = false := by
        simp [lookup_type, hf, htp]
      cases mat with
      | none =>
        simp [get_rate, rate_spec, lookup_type, hf, hne, htp]
      | some m =>
        by_cases hm : m = ""
        · simp [get_rate, rate_spec, lookup_type, hf, hne, htp, hm]
        · have hscan := find_scan_eq m tp.2
          simp only [get_rate, rate_spec, lookup_type, hf, hne, hm,
            Bool.false_eq_true, if_false, if_neg hm]
          rw [← hscan]
          cases (tp.2.find? (fun p =>
            strContains (lowerStr m) (lowerStr p.1) &&
              !(p.1 == "default"))) <;>
            simp [htp]

/-! ## Claims -/

/-- C1: when the tier-1 (authoritative quantity-set) extraction yields a
volume `v`, the record produced by `extract_quantities` has volume exactly
`v * scale³` — and its area and length are tier 1's values converted by
`scale²` and `scale` respectively (each exactly once), regardless of the
element's generic property sets or geometry; moreover within the tier-1
quantity-set scan each field takes the first valid numeric value in scan
order (never an average or a sum). -/
theorem C1_tier1_volume_wins (scale : ℚ) (e : Element) (st : Option String)
    (v : ℚ) (h : (extract_ifc_element_quantities e).volume = some v) :
    (extract_quantities scale e st).volume = some (v * scale ^ 3) ∧
    (extract_quantities scale e st).area =
      (extract_ifc_element_quantities e).area.map (fun a => a * scale ^ 2) ∧
    (extract_quantities scale e st).length =
      (extract_ifc_element_quantities e).length.map (fun l => l * scale) ∧
    (∀ k, (qtos_scan e.qtoSets).get k =
      first_valid_for k (flat_entries e.qtoSets)) := by
  have hE : (extract_ifc_element_quantities e).isEmpty = false :=
    isEmpty_false_of_get _ QKind.volume v h
  obtain ⟨hv, ha, hl⟩ := extract_fields_of_t1 scale e st hE
  refine ⟨?_, ha, hl, fun k => qtos_scan_get _ k⟩
  rw [hv, h]
  rfl

/-- Witness for C1 at `c1elem` with millimeter scale. -/
theorem C1_tier1_volume_wins_witness :
    (extract_quantities (1 / 1000) c1elem none).volume =
      some (2 * (1 / 1000 : ℚ) ^ 3) :=
  (C1_tier1_volume_wins (1 / 1000) c1elem none 2 (by decide)).1

/-- C4 counterexample: tier 1 leaves `area` absent, tier 2's scan would
yield `area = 5`, yet the extracted record's area is `none` — so tier 2
does not fill fields merely left absent by tier 1. -/
theorem C4_counterexample :
    (extract_ifc_element_quantities c4elem).area = none ∧
    (extract_qto_properties c4elem).area = some 5 ∧
    (extract_quantities 1 c4elem none).area = none := by
  refine ⟨by decide, by decide, ?_⟩
  have hE : (extract_ifc_element_quantities c4elem).isEmpty = false := by
    decide
  have h := (extract_fields_of_t1 1 c4elem none hE).2.1
  rw [h]
  decide

/-- C4 amended: tier 2 (generic property sets whose name signals
quantities) runs only when tier 1 resolved none of the three fields.  When
tier 1 resolved at least one field, all three fields of the record come
from tier 1 alone; when tier 1 is empty and tier 2 resolves at least one
field, all three come from tier 2 (geometry is not consulted).  Fields
resolved by tier 1 are never overwritten. -/
theorem C4_amended_tier2_gate (scale : ℚ) (e : Element) (st : Option String) :
    ((extract_ifc_element_quantities e).isEmpty = false →
      (extract_quantities scale e st).volume =
        (extract_ifc_element_quantities e).volume.map
          (fun v => v * scale ^ 3) ∧
      (extract_quantities scale e st).area =
        (extract_ifc_element_quantities e).area.map (fun a => a * scale ^ 2) ∧
      (extract_quantities scale e st).length =
        (extract_ifc_element_quantities e).length.map (fun l => l * scale)) ∧
    ((extract_ifc_element_quantities e).isEmpty = true →
      (extract_qto_properties e).isEmpty = false →
      (extract_quantities scale e st).volume =
        (extract_qto_properties e).volume.map (fun v => v * scale ^ 3) ∧
      (extract_quantities scale e st).area =
        (extract_qto_properties e).area.map (fun a => a * scale ^ 2) ∧
      (extract_quantities scale e st).length =
        (extract_qto_properties e).length.map (fun l => l * scale)) :=
  ⟨fun h => extract_fields_of_t1 scale e st h,
   fun h1 h2 => extract_fields_of_t2 scale e st h1 h2⟩

/-- Witness for the amended C4: at `c4welem` tier 1 is empty and tier 2
resolves the area, which the record carries scaled. -/
theorem C4_amended_tier2_gate_witness :
    (extract_quantities 1 c4welem none).area =
      (extract_qto_properties c4welem).area.map (fun a => a * (1 : ℚ) ^ 2) :=
  ((C4_amended_tier2_gate 1 c4welem none).2 (by decide) (by decide)).2.1

/-- C8 counterexample: a negative authoritative NetVolume of −5 flows
through tiers 1–2 unvalidated, so the extracted record carries a negative
volume — the claimed non-negativity invariant does not hold. -/
theorem C8_counterexample :
    (extract_quantities 1 c8elem none).volume = some ((-5 : ℚ) * 1 ^ 3) ∧
    ((-5 : ℚ) * 1 ^ 3 < 0) := by
  constructor
  · have hE : (extract_ifc_element_quantities c8elem).isEmpty = false := by
      decide
    have h := (extract_fields_of_t1 1 c8elem none hE).1
    rw [h]
    have hv : (extract_ifc_element_quantities c8elem).volume = some (-5) := by
      decide
    rw [hv]
    rfl
  · norm_num

/-- C8 amended: each of volume, area, length of an extracted record is
either absent (`none`, meaning not determinable) or a number; values from
the geometric tier are strictly positive by construction, but tiers 1–2
accept any numeric source value, so the fields are guaranteed non-negative
only when every numeric value in the element's quantity sets and property
sets is non-negative (and the scale factor is non-negative). -/
theorem C8_amended_nonneg (scale : ℚ) (e : Element) (st : Option String)
    (hs : 0 ≤ scale) (h : element_values_nn e = true) :
    OptNN (extract_quantities scale e st).volume ∧
    OptNN (extract_quantities scale e st).area ∧
    OptNN (extract_quantities scale e st).length := by
  have hnn := extract_triple_nn e h
  refine ⟨?_, ?_, ?_⟩ <;> intro v hv
  · simp only [extract_quantities, Option.map_eq_some'] at hv
    obtain ⟨w, hw, rfl⟩ := hv
    exact mul_nonneg (hnn QKind.volume w hw) (pow_nonneg hs 3)
  · simp only [extract_quantities, Option.map_eq_some'] at hv
    obtain ⟨w, hw, rfl⟩ := hv
    exact mul_nonneg (hnn QKind.area w hw) (pow_nonneg hs 2)
  · simp only [extract_quantities, Option.map_eq_some'] at hv
    obtain ⟨w, hw, rfl⟩ := hv
    exact mul_nonneg (hnn QKind.length w hw) hs

/-- Witness for the amended C8 at `c1elem` (all source values
non-negative) with scale 1. -/
theorem C8_amended_nonneg_witness :
    OptNN (extract_quantities 1 c1elem none).volume ∧
    OptNN (extract_quantities 1 c1elem none).area ∧
    OptNN (extract_quantities 1 c1elem none).length :=
  C8_amended_nonneg 1 c1elem none (by decide) (by decide)

/-- C5 counterexample: on a file whose units list holds an explicit SI
MILLI length unit followed by a named CENTIMETRE unit, the code resolves
0.01 — the named-unit scan runs before the SI-prefix scan, so the claimed
resolution order (SI prefix first, 0.001 here) is wrong. -/
theorem C5_counterexample :
    get_unit_scale_factor c5file = 1 / 100 ∧ (1 / 100 : ℚ) ≠ 1 / 1000 := by
  constructor
  · simp +decide [get_unit_scale_factor, c5file, scan_named, siMilliUnit,
      namedCentiUnit]
  · norm_num

/-- C5 amended: the factor is resolved by first scanning for a named
length unit whose name contains a meter/metre token (inspecting the name
for milli/centi), then for an SI length unit by its prefix, then the 0.001
default; with no unit information it is 0.001, and the result is always
positive. -/
theorem C5_amended_resolution (f : IfcFileDef) :
    0 < get_unit_scale_factor f ∧
    (units_of f = none → get_unit_scale_factor f = 1 / 1000) ∧
    (∀ us, units_of f = some us →
      (∀ r, scan_named us = some r → get_unit_scale_factor f = r) ∧
      (scan_named us = none → ∀ r, scan_si us = some r →
        get_unit_scale_factor f = r) ∧
      (scan_named us = none → scan_si us = none →
        get_unit_scale_factor f = 1 / 1000)) := by
  cases hp : f.projects with
  | nil =>
    refine ⟨by simp only [get_unit_scale_factor, hp]; norm_num,
      fun _ => ?_, ?_⟩
    · simp only [get_unit_scale_factor, hp]
    · intro us hus
      simp only [units_of, hp] at hus
      exact Option.noConfusion hus
  | cons p rest =>
    cases hu : p.unitsInContext with
    | none =>
      refine ⟨by simp only [get_unit_scale_factor, hp, hu]; norm_num,
        fun _ => by simp only [get_unit_scale_factor, hp, hu], ?_⟩
      intro us hus
      simp only [units_of, hp, hu] at hus
      exact Option.noConfusion hus
    | some units =>
      have hval : get_unit_scale_factor f =
          (match scan_named units with
           | some r => r
           | none =>
             match scan_si units with
             | some r => r
             | none => 1 / 1000) := by
        simp only [get_unit_scale_factor, hp, hu]
      refine ⟨?_, ?_, ?_⟩
      · rw [hval]
        cases hn : scan_named units with
        | some r => simp only [hn]; exact scan_named_pos units r hn
        | none =>
          cases hs : scan_si units with
          | some r => simp only [hn, hs]; exact scan_si_pos units r hs
          | none => simp only [hn, hs]; norm_num
      · intro habs
        simp only [units_of, hp, hu] at habs
        exact Option.noConfusion habs
      · intro us hus
        simp only [units_of, hp, hu, Option.some_inj] at hus
        subst hus
        refine ⟨fun r hr => by rw [hval]; simp only [hr],
          fun hn r hs => ?_, fun hn hs => ?_⟩
        · rw [hval]; simp only [hn, hs]
        · rw [hval]; simp only [hn, hs]

/-- Witness for the amended C5: on `c5file` the named-unit scan answers
0.01 and the overall factor follows it. -/
theorem C5_amended_resolution_witness :
    get_unit_scale_factor c5file = 1 / 100 :=
  ((C5_amended_resolution c5file).2.2 [siMilliUnit, namedCentiUnit] rfl).1
    (1 / 100)
    (by simp +decide [scan_named, siMilliUnit, namedCentiUnit])

/-- C6: `extract_all_quantities` is exactly a per-element filter-map — a
total function of the input list, so the batch never aborts: each element
independently either yields its record or is dropped (when its extraction
raises), the surviving records keep the input's relative order, and every
element whose extraction succeeds appears in the output. -/
theorem C6_batch_isolation (scale : ℚ) (es : List Element)
    (f : Element → Except String (Option String)) :
    extract_all_quantities scale es f =
      es.filterMap (extract_element_step scale f) ∧
    (∀ e ∈ es, e.broken = false →
      extract_quantities scale e (resolved_storey f e) ∈
        extract_all_quantities scale es f) := by
  refine ⟨extract_all_eq_filterMap scale es f, ?_⟩
  intro e he hb
  rw [extract_all_eq_filterMap]
  exact List.mem_filterMap.mpr
    ⟨e, he, extract_element_step_ok scale f e hb⟩

/-- Witness for C6: with one good and one broken element, the good
element's record is in the output. -/
theorem C6_batch_isolation_witness :
    extract_quantities 1 minimal_elem (resolved_storey stub_storey
      minimal_elem) ∈
      extract_all_quantities 1 [minimal_elem, broken_elem] stub_storey :=
  (C6_batch_isolation 1 [minimal_elem, broken_elem] stub_storey).2
    minimal_elem (by decide) (by decide)

/-- C9: every aggregation group formed from records produced by
`extract_quantities` (through `extract_all_quantities`) yields a BOQ line
whose count equals the number of records in the group — the extractor sets
every record's count to 1 and the aggregator sums them. -/
theorem C9_group_count_is_size (scale : ℚ) (es : List Element)
    (f : Element → Except String (Option String)) (lvl : String) :
    ∀ g ∈ group_quantities (extract_all_quantities scale es f) lvl,
      (create_boq_item g.1 g.2 lvl).count = (g.2.length : ℤ) := by
  intro g hg
  refine create_boq_item_count g.1 g.2 lvl ?_
  intro r hr
  exact group_quantities_pred (fun x => x.count = 1) lvl
    (extract_all_quantities scale es f) [] (by intro g' hg'; cases hg')
    (extract_all_count_one scale es f) g hg r hr

/-- Witness for C9: one extracted record grouped by type gives a line with
count 1. -/
theorem C9_group_count_is_size_witness :
    (create_boq_item "IfcWall" [extract_quantities 1 minimal_elem none]
      "type").count =
      (([extract_quantities 1 minimal_elem none].length : ℕ) : ℤ) :=
  C9_group_count_is_size 1 [minimal_elem] stub_storey "type"
    ("IfcWall", [extract_quantities 1 minimal_elem none]) (by decide)

/-- C2: the primary unit/quantity of a group follows the fixed priority —
a volume-priority base type with positive summed volume always yields m³
(even with positive area and length present); otherwise the area-priority
set, then the length-priority set, then the fixed fallthrough volume → m³,
area → m², length → m, else "No." with the summed count; and every group
yields a line (one row per group). -/
theorem C2_primary_quantity_priority (v a l : ℚ) (c : ℤ) (ty : String) :
    (element_base ty ∈ volume_elements → 0 < v →
      determine_primary_quantity v a l c ty = ("m³", v)) ∧
    (¬ (element_base ty ∈ volume_elements ∧ 0 < v) →
      element_base ty ∈ area_elements → 0 < a →
      determine_primary_quantity v a l c ty = ("m²", a)) ∧
    (¬ (element_base ty ∈ volume_elements ∧ 0 < v) →
      ¬ (element_base ty ∈ area_elements ∧ 0 < a) →
      element_base ty ∈ length_elements → 0 < l →
      determine_primary_quantity v a l c ty = ("m", l)) ∧
    (¬ (element_base ty ∈ volume_elements ∧ 0 < v) →
      ¬ (element_base ty ∈ area_elements ∧ 0 < a) →
      ¬ (element_base ty ∈ length_elements ∧ 0 < l) →
      determine_primary_quantity v a l c ty =
        (if 0 < v then ("m³", v)
         else if 0 < a then ("m²", a)
         else if 0 < l then ("m", l)
         else ("No.", (c : ℚ)))) ∧
    (∀ (qs : List Record) (lvl : String), qs ≠ [] →
      (generate_boq qs lvl).rows.length =
        (group_quantities qs lvl).length) := by
  refine ⟨?_, ?_, ?_, ?_, ?_⟩
  · intro hmem hv
    simp [determine_primary_quantity, hmem, hv]
  · intro hnv hmem ha
    simp [determine_primary_quantity, hnv, hmem, ha]
  · intro hnv hna hmem hl
    simp [determine_primary_quantity, hnv, hna, hmem, hl]
  · intro h1 h2 h3
    simp [determine_primary_quantity, h1, h2, h3]
  · intro qs lvl hqs
    have hne : qs.isEmpty = false := by
      cases qs with
      | nil => exact absurd rfl hqs
      | cons q rest => rfl
    simp [generate_boq, hne, length_sort_rows]

/-- Witness for C2: a wall group with positive volume, area and length is
priced by volume. -/
theorem C2_primary_quantity_priority_witness :
    determine_primary_quantity 2 3 4 1 "IfcWall" = ("m³", 2) :=
  (C2_primary_quantity_priority 2 3 4 1 "IfcWall").1 (by decide) (by decide)

/-- C3: `get_rate` follows the claimed lookup priority exactly — first
rate entry (in declared order) whose key is case-insensitively a substring
of the given material and is not the literal "default", else the type's
"default" entry, else 0.0, with an absent type yielding 0.0 — and the
spec's worked example evaluates as claimed: substring match 50, default
fallback 10, absent type 0.0. -/
theorem C3_rate_lookup (rates : RateTable) (ty : String)
    (mat : Option String) :
    get_rate rates ty mat = rate_spec rates ty mat ∧
    get_rate demoRates "IfcWall" (some "Ready Mix Concrete Grade 30") = 50 ∧
    get_rate demoRates "IfcWall" (some "Steel") = 10 ∧
    get_rate demoRates "IfcSlab" (some "Ready Mix Concrete Grade 30") = 0 :=
  ⟨get_rate_eq_rate_spec rates ty mat, by decide, by decide, by decide⟩

/-- Witness for C3 at a concrete lookup. -/
theorem C3_rate_lookup_witness :
    get_rate demoRates "IfcWall" none = rate_spec demoRates "IfcWall" none :=
  (C3_rate_lookup demoRates "IfcWall" none).1

/-- C7 (code bug): on any generated, nonempty BOQ, `add_item_numbers`
raises instead of numbering — the frame produced by `generate_boq` already
contains an `item_no` column (filled with null), and pandas
`DataFrame.insert` raises `ValueError` on an existing column.  Here the
one-record BOQ evaluates to that error rather than to rows numbered
{1..N}. -/
theorem C7_add_item_numbers_raises :
    add_item_numbers
        (generate_boq [extract_quantities 1 minimal_elem none] "type") =
      Except.error "cannot insert item_no, already exists" := by
  simp +decide [add_item_numbers, generate_boq, df_insert_item_no]

/-- C10: with no quantity records loaded, `generate_boq` returns the empty
frame for every grouping level (without raising), and `get_summary` of the
empty frame is the empty mapping (`none`), not a zero-valued summary. -/
theorem C10_empty_generation (lvl : String) :
    generate_boq [] lvl = ⟨[], []⟩ ∧
    get_summary (generate_boq [] lvl) = none ∧
    get_summary (⟨[], []⟩ : BoqDF) = none :=
  ⟨rfl, rfl, rfl⟩

/-- Witness for C10 at the "storey" grouping level. -/
theorem C10_empty_generation_witness :
    generate_boq [] "storey" = ⟨[], []⟩ :=
  (C10_empty_generation "storey").1

end BimQto
